import Mathlib

/-!
# Enthalpy Calculator — verification development

Shallow embedding of the two front-end variants of the Enthalpy-Calculator
repository:

* the steam-table variant (`src/script.js`): a fixed table of superheated-steam
  curves, nearest-pressure selection, range validation and piecewise-linear
  interpolation over temperature, plus a list of recorded data points;
* the air variant (`src/unnamed/part_000`): a closed-form dry-air enthalpy
  formula `cpDryAir(T) * T` and a rolling window of at most `maxDataPoints`
  recorded entries.

Numbers are modelled as exact rationals (`ℚ`); all table literals are exact
decimals, so the JavaScript arithmetic is mirrored exactly.  Fallible code
(`throw`, possibly-undefined object lookup) is modelled with `Except` and
`Option`.
-/

namespace Steam

/-- One tabulated curve: index-aligned temperature and enthalpy samples. -/
structure SteamCurve where
  temperatures : List ℚ
  enthalpies : List ℚ

/-- The 10 kg/cm²G curve of `steamTableData`. -/
def curve10 : SteamCurve :=
  { temperatures := [200, 250, 300, 350, 400, 450, 500, 550, 600],
    enthalpies := [2827.4, 2957.2, 3051.2, 3157.7, 3264.5, 3373.7, 3486.8, 3603.4, 3723.4] }

/-- The 20 kg/cm²G curve of `steamTableData`. -/
def curve20 : SteamCurve :=
  { temperatures := [212, 250, 300, 350, 400, 450, 500, 550, 600],
    enthalpies := [2799.5, 2902.5, 3023.5, 3137.0, 3248.4, 3360.8, 3475.2, 3592.2, 3712.0] }

/-- The 30 kg/cm²G curve of `steamTableData`. -/
def curve30 : SteamCurve :=
  { temperatures := [234, 250, 300, 350, 400, 450, 500, 550, 600],
    enthalpies := [2803.4, 2855.8, 2993.5, 3115.3, 3231.6, 3346.8, 3462.8, 3580.4, 3700.1] }

/-- The 50 kg/cm²G curve of `steamTableData`. -/
def curve50 : SteamCurve :=
  { temperatures := [264, 300, 350, 400, 450, 500, 550, 600],
    enthalpies := [2794.3, 2924.5, 3064.2, 3196.7, 3317.2, 3436.7, 3556.8, 3678.2] }

/-- The 90 kg/cm²G curve of `steamTableData`. -/
def curve90 : SteamCurve :=
  { temperatures := [303, 350, 400, 450, 500, 550, 600],
    enthalpies := [2724.7, 2957.2, 3138.3, 3279.6, 3410.3, 3486.0, 3612.8] }

/-- `steamTableData` from `script.js`: pressure level (kg/cm²G) ↦ curve.
JavaScript iterates integer-like object keys in ascending numeric order,
so the declaration order is `[10, 20, 30, 50, 90]`. -/
def steamTableData : List (ℚ × SteamCurve) :=
  [(10, curve10), (20, curve20), (30, curve30), (50, curve50), (90, curve90)]

/-- `Object.keys(steamTableData).map(Number)`. -/
def availablePressures : List ℚ := steamTableData.map Prod.fst

/-- `Math.abs` on exact rationals. -/
def mathAbs (x : ℚ) : ℚ := if x < 0 then -x else x

/-- `linearInterpolate(x, x1, x2, y1, y2)` from `script.js`:
guards `x1 === x2` before dividing. -/
def linearInterpolate (x x1 x2 y1 y2 : ℚ) : ℚ :=
  if x1 = x2 then y1
  else y1 + ((x - x1) / (x2 - x1)) * (y2 - y1)

/-- `findClosestPressure(targetPressure)` from `script.js`: starts from the
first declared level, then keeps the first minimum found under a strict `<`
comparison while scanning the levels in declaration order. -/
def findClosestPressure (targetPressure : ℚ) : ℚ :=
  let closest := availablePressures.headD 0
  let minDiff := mathAbs (targetPressure - closest)
  (availablePressures.foldl
    (fun acc pressure =>
      if mathAbs (targetPressure - pressure) < acc.2 then
        (pressure, mathAbs (targetPressure - pressure))
      else acc)
    (closest, minDiff)).1

/-- The bracket-search loop of `calculateEnthalpy`:
`let i = 0; while (i < temps.length - 1 && temps[i+1] <= temperature) i++`. -/
def bracketIdx : List ℚ → ℚ → ℕ
  | _ :: t2 :: rest, temperature =>
    if t2 ≤ temperature then bracketIdx (t2 :: rest) temperature + 1 else 0
  | _, _ => 0

/-- The `Error` thrown at the range check: its message carries the requested
temperature, the selected pressure level and the valid bounds. -/
structure OutOfRangeError where
  temperature : ℚ
  pressureUsed : ℚ
  tempMin : ℚ
  tempMax : ℚ

/-- The `interpolationData` diagnostics object. -/
structure InterpolationData where
  T1 : ℚ
  T2 : ℚ
  h1 : ℚ
  h2 : ℚ

/-- The object returned by a successful `calculateEnthalpy` call; `method`
is the JavaScript string tag. -/
structure CalcResult where
  enthalpy : ℚ
  pressureUsed : ℚ
  method : String
  interpolationData : Option InterpolationData

/-- The body of `calculateEnthalpy` after `data = steamTableData[closest]`
has been fetched: range check, bracket search, exact match or linear
interpolation. -/
def calcWithData (temperature closestPressure : ℚ) (data : SteamCurve) :
    Except OutOfRangeError CalcResult :=
  let temps := data.temperatures
  let enthalpies := data.enthalpies
  if temperature < temps.getD 0 0 ∨ temps.getD (temps.length - 1) 0 < temperature then
    .error { temperature := temperature, pressureUsed := closestPressure,
             tempMin := temps.getD 0 0, tempMax := temps.getD (temps.length - 1) 0 }
  else
    let i := bracketIdx temps temperature
    if temps.getD i 0 = temperature then
      .ok { enthalpy := enthalpies.getD i 0, pressureUsed := closestPressure,
            method := "exact", interpolationData := none }
    else
      let T1 := temps.getD i 0
      let T2 := temps.getD (i + 1) 0
      let h1 := enthalpies.getD i 0
      let h2 := enthalpies.getD (i + 1) 0
      .ok { enthalpy := linearInterpolate temperature T1 T2 h1 h2,
            pressureUsed := closestPressure, method := "interpolated",
            interpolationData := some { T1 := T1, T2 := T2, h1 := h1, h2 := h2 } }

/-- `calculateEnthalpy(temperature, pressure)` from `script.js`.  The outer
`Option` models the object lookup `steamTableData[closestPressure]` (which in
JavaScript would yield `undefined` for a key outside the table); `Except`
models the thrown range error. -/
def calculateEnthalpy (temperature pressure : ℚ) :
    Option (Except OutOfRangeError CalcResult) :=
  let closestPressure := findClosestPressure pressure
  (steamTableData.lookup closestPressure).map (calcWithData temperature closestPressure)

/-- Projection: the enthalpy of a successful estimate, `none` on failure. -/
def resultEnthalpy : Option (Except OutOfRangeError CalcResult) → Option ℚ
  | some (Except.ok r) => some r.enthalpy
  | _ => none

/-- One element of the `dataPoints` array pushed by the submit handler. -/
structure SteamPoint where
  temperature : ℚ
  pressure : ℚ
  pressureUsed : ℚ
  enthalpy : ℚ
  method : String

/-- The mutable state of the steam variant: the `dataPoints` array.  The
chart and the DOM text fields are derived views of it. -/
structure SteamState where
  dataPoints : List SteamPoint

/-- `updateStats()` as a pure view of `dataPoints`: the data-point count and
the arithmetic mean of the recorded enthalpies (`none` models the `'-'`
no-data marker shown when the list is empty). -/
def currentStats (s : SteamState) : ℕ × Option ℚ :=
  (s.dataPoints.length,
   if 0 < s.dataPoints.length then
     some ((s.dataPoints.foldl (fun sum point => sum + point.enthalpy) 0) /
            (s.dataPoints.length : ℚ))
   else none)

/-- `resetForm()` from `script.js`: `dataPoints = []` (followed by
`updateStats()` and `initializeChart()`, which only re-render views). -/
def resetForm (_s : SteamState) : SteamState := { dataPoints := [] }

/-- The submit handler of `script.js` restricted to its state effect: after
validation, a successful `calculateEnthalpy` pushes one entry onto
`dataPoints`; a thrown range error is caught and leaves the state unchanged.
There is no bound check on the array. -/
def submit (s : SteamState) (temperature pressure : ℚ) : SteamState :=
  if temperature < 0 ∨ pressure < 0 then s
  else
    match calculateEnthalpy temperature pressure with
    | some (Except.ok result) =>
        { dataPoints := s.dataPoints ++
            [{ temperature := temperature, pressure := pressure,
               pressureUsed := result.pressureUsed, enthalpy := result.enthalpy,
               method := result.method }] }
    | _ => s

end Steam

namespace Air

/-- `cpDryAir(T)` from the air variant. -/
def cpDryAir (T : ℚ) : ℚ :=
  let a : ℚ := 1003.5
  let b : ℚ := 0.1
  let c : ℚ := -0.00002
  a + b * T + c * T * T

/-- `calculateEnthalpy(T)` from the air variant: it takes the temperature
only. -/
def calculateEnthalpy (T : ℚ) : ℚ := cpDryAir T * T

/-- `const maxDataPoints = 50`. -/
def maxDataPoints : ℕ := 50

/-- The mutable state of the air variant: four index-aligned arrays. -/
structure AirState where
  enthalpyData : List ℚ
  temperatureDataPoints : List ℚ
  pressureDataPoints : List ℚ
  timeLabels : List String

/-- The initial (page-load) state: all arrays empty. -/
def initState : AirState :=
  { enthalpyData := [], temperatureDataPoints := [], pressureDataPoints := [],
    timeLabels := [] }

/-- `updateChart(temp, pressure)` restricted to its state effect: compute the
enthalpy, push onto all four arrays, then `shift()` each of them if
`enthalpyData.length > maxDataPoints`. -/
def updateChart (s : AirState) (temp pressure : ℚ) (timestamp : String) : AirState :=
  let enthalpy := calculateEnthalpy temp
  let pushed : AirState :=
    { enthalpyData := s.enthalpyData ++ [enthalpy],
      temperatureDataPoints := s.temperatureDataPoints ++ [temp],
      pressureDataPoints := s.pressureDataPoints ++ [pressure],
      timeLabels := s.timeLabels ++ [timestamp] }
  if pushed.enthalpyData.length > maxDataPoints then
    { enthalpyData := pushed.enthalpyData.tail,
      temperatureDataPoints := pushed.temperatureDataPoints.tail,
      pressureDataPoints := pushed.pressureDataPoints.tail,
      timeLabels := pushed.timeLabels.tail }
  else pushed

/-- `resetForm()` from the air variant: all four arrays cleared (the DOM
resets are view-only). -/
def resetForm (_s : AirState) : AirState := initState

/-- Folding a sequence of successful submissions through `updateChart`. -/
def recordAll (s : AirState) (inputs : List (ℚ × ℚ × String)) : AirState :=
  inputs.foldl (fun st q => updateChart st q.1 q.2.1 q.2.2) s

/-- The rolling-window push on a single array: append, then drop the oldest
element when the bound is exceeded.  Each of the four arrays of `updateChart`
evolves by this function (see `recordAll_eq`). -/
def windowPush {α : Type} (l : List α) (x : α) : List α :=
  if (l ++ [x]).length > maxDataPoints then (l ++ [x]).tail else l ++ [x]

end Air

/-! ## Helper lemmas -/

namespace Steam

theorem mathAbs_eq_abs (x : ℚ) : mathAbs x = |x| := by
  rcases lt_or_le x 0 with h | h
  · rw [mathAbs, if_pos h, abs_of_neg h]
  · rw [mathAbs, if_neg (not_lt.mpr h), abs_of_nonneg h]

theorem bracketIdx_lt_length : ∀ (temps : List ℚ) (t : ℚ), temps ≠ [] →
    bracketIdx temps t < temps.length
  | [], _, h => absurd rfl h
  | [_], _, _ => by simp [bracketIdx]
  | t1 :: t2 :: rest, t, _ => by
    simp only [bracketIdx]
    split
    · have ih := bracketIdx_lt_length (t2 :: rest) t (by simp)
      simp only [List.length_cons] at ih ⊢
      omega
    · simp

theorem bracketIdx_head_le : ∀ (temps : List ℚ) (t : ℚ), temps.getD 0 0 ≤ t →
    temps.getD (bracketIdx temps t) 0 ≤ t
  | [], t, h => by simpa [bracketIdx] using h
  | [a], t, h => by simpa [bracketIdx] using h
  | t1 :: t2 :: rest, t, h => by
    simp only [bracketIdx]
    split
    · rename_i hc
      have ih := bracketIdx_head_le (t2 :: rest) t (by simpa using hc)
      simpa [List.getD_cons_succ] using ih
    · simpa using h

theorem bracketIdx_stop : ∀ (temps : List ℚ) (t : ℚ), temps ≠ [] →
    bracketIdx temps t + 1 = temps.length ∨
      (bracketIdx temps t + 1 < temps.length ∧ t < temps.getD (bracketIdx temps t + 1) 0)
  | [], _, h => absurd rfl h
  | [a], t, _ => by simp [bracketIdx]
  | t1 :: t2 :: rest, t, _ => by
    simp only [bracketIdx]
    split
    · rename_i hc
      rcases bracketIdx_stop (t2 :: rest) t (by simp) with h | ⟨h1, h2⟩
      · left
        simp only [List.length_cons] at h ⊢
        omega
      · right
        refine ⟨by simp only [List.length_cons] at h1 ⊢; omega, ?_⟩
        simpa [List.getD_cons_succ] using h2
    · rename_i hc
      right
      refine ⟨by simp only [List.length_cons]; omega, ?_⟩
      simpa using not_le.mp hc

theorem pairwise_getD_lt (temps : List ℚ) (hs : List.Pairwise (· < ·) temps)
    {i j : ℕ} (hij : i < j) (hj : j < temps.length) :
    temps.getD i 0 < temps.getD j 0 := by
  have hi : i < temps.length := hij.trans hj
  rw [List.getD_eq_get temps 0 hi, List.getD_eq_get temps 0 hj]
  exact List.pairwise_iff_get.mp hs ⟨i, hi⟩ ⟨j, hj⟩ hij

theorem pairwise_getD_le (temps : List ℚ) (hs : List.Pairwise (· < ·) temps)
    {i j : ℕ} (hij : i ≤ j) (hj : j < temps.length) :
    temps.getD i 0 ≤ temps.getD j 0 := by
  rcases Nat.eq_or_lt_of_le hij with rfl | h
  · exact le_refl _
  · exact (pairwise_getD_lt temps hs h hj).le

theorem bracketIdx_eq_of_between : ∀ (temps : List ℚ) (t : ℚ) (i : ℕ),
    List.Pairwise (· < ·) temps → i + 1 < temps.length →
    temps.getD i 0 ≤ t → t < temps.getD (i + 1) 0 → bracketIdx temps t = i
  | [], _, i, _, hi, _, _ => by simp at hi
  | [a], _, i, _, hi, _, _ => by
    simp only [List.length_cons, List.length_nil] at hi
    omega
  | t1 :: t2 :: rest, t, 0, _, _, _, h4 => by
    have hlt : t < t2 := by simpa using h4
    simp [bracketIdx, not_le.mpr hlt]
  | t1 :: t2 :: rest, t, j + 1, hs, hi, h3, h4 => by
    have hjlen : j + 1 < (t1 :: t2 :: rest).length := by
      simp only [List.length_cons] at hi ⊢
      omega
    have ht2 : t2 ≤ t :=
      calc t2 = (t1 :: t2 :: rest).getD 1 0 := by simp
        _ ≤ (t1 :: t2 :: rest).getD (j + 1) 0 :=
            pairwise_getD_le _ hs (by omega) hjlen
        _ ≤ t := h3
    have ih := bracketIdx_eq_of_between (t2 :: rest) t j (List.pairwise_cons.mp hs).2
      (by simp only [List.length_cons] at hi ⊢; omega)
      (by simpa [List.getD_cons_succ] using h3)
      (by simpa [List.getD_cons_succ] using h4)
    simp [bracketIdx, if_pos ht2, ih]

theorem bracketIdx_last_eq : ∀ (temps : List ℚ) (t : ℚ),
    List.Pairwise (· < ·) temps → temps ≠ [] →
    temps.getD (temps.length - 1) 0 ≤ t → bracketIdx temps t = temps.length - 1
  | [], _, _, h, _ => absurd rfl h
  | [a], _, _, _, _ => by simp [bracketIdx]
  | t1 :: t2 :: rest, t, hs, _, hlast => by
    have hlast' : (t1 :: t2 :: rest).getD (rest.length + 1) 0 ≤ t := by
      simpa using hlast
    have ht2 : t2 ≤ t :=
      calc t2 = (t1 :: t2 :: rest).getD 1 0 := by simp
        _ ≤ (t1 :: t2 :: rest).getD (rest.length + 1) 0 :=
            pairwise_getD_le _ hs (by omega) (by simp)
        _ ≤ t := hlast'
    have ih := bracketIdx_last_eq (t2 :: rest) t (List.pairwise_cons.mp hs).2 (by simp)
      (by simpa [List.getD_cons_succ] using hlast')
    simp only [bracketIdx, if_pos ht2, ih]
    simp

end Steam

namespace Steam

theorem curve10_sorted : List.Pairwise (· < ·) curve10.temperatures := by
  norm_num [curve10, List.pairwise_cons]

theorem curve20_sorted : List.Pairwise (· < ·) curve20.temperatures := by
  norm_num [curve20, List.pairwise_cons]

theorem curve30_sorted : List.Pairwise (· < ·) curve30.temperatures := by
  norm_num [curve30, List.pairwise_cons]

theorem curve50_sorted : List.Pairwise (· < ·) curve50.temperatures := by
  norm_num [curve50, List.pairwise_cons]

theorem curve90_sorted : List.Pairwise (· < ·) curve90.temperatures := by
  norm_num [curve90, List.pairwise_cons]

theorem curve10_len : curve10.enthalpies.length = curve10.temperatures.length := rfl

theorem curve20_len : curve20.enthalpies.length = curve20.temperatures.length := rfl

theorem curve30_len : curve30.enthalpies.length = curve30.temperatures.length := rfl

theorem curve50_len : curve50.enthalpies.length = curve50.temperatures.length := rfl

theorem curve90_len : curve90.enthalpies.length = curve90.temperatures.length := rfl

theorem findClosestPressure_cases (p : ℚ) :
    findClosestPressure p = 10 ∨ findClosestPressure p = 20 ∨ findClosestPressure p = 30 ∨
      findClosestPressure p = 50 ∨ findClosestPressure p = 90 := by
  simp only [findClosestPressure, availablePressures, steamTableData, List.map_cons,
    List.map_nil, List.headD, List.foldl_cons, List.foldl_nil, lt_self_iff_false, if_false]
  split_ifs <;> simp

theorem lookup_10 : steamTableData.lookup (10 : ℚ) = some curve10 := rfl

theorem lookup_20 : steamTableData.lookup (20 : ℚ) = some curve20 := rfl

theorem lookup_30 : steamTableData.lookup (30 : ℚ) = some curve30 := rfl

theorem lookup_50 : steamTableData.lookup (50 : ℚ) = some curve50 := rfl

theorem lookup_90 : steamTableData.lookup (90 : ℚ) = some curve90 := rfl

end Steam

namespace Steam

theorem calcWithData_linear (temps enths : List ℚ) (cp : ℚ)
    (hs : List.Pairwise (· < ·) temps)
    (i : ℕ) (hi : i + 1 < temps.length) (t : ℚ) (ht0 : 0 ≤ t) (ht1 : t ≤ 1) :
    ∃ r : CalcResult,
      calcWithData (temps.getD i 0 + (temps.getD (i + 1) 0 - temps.getD i 0) * t) cp
          ⟨temps, enths⟩ = Except.ok r ∧
      r.enthalpy = enths.getD i 0 + t * (enths.getD (i + 1) 0 - enths.getD i 0) := by
  have hT : temps.getD i 0 < temps.getD (i + 1) 0 :=
    pairwise_getD_lt temps hs (Nat.lt_succ_self i) hi
  generalize hxg : temps.getD i 0 + (temps.getD (i + 1) 0 - temps.getD i 0) * t = x
  have hi' : i < temps.length := by omega
  have hx1 : temps.getD i 0 ≤ x := by rw [← hxg]; nlinarith
  have hx2 : x ≤ temps.getD (i + 1) 0 := by rw [← hxg]; nlinarith
  have hlow : temps.getD 0 0 ≤ x :=
    le_trans (pairwise_getD_le temps hs (Nat.zero_le i) hi') hx1
  have hhigh : x ≤ temps.getD (temps.length - 1) 0 :=
    le_trans hx2 (pairwise_getD_le temps hs (by omega) (by omega))
  have hrange : ¬ (x < temps.getD 0 0 ∨ temps.getD (temps.length - 1) 0 < x) := by
    push_neg
    exact ⟨hlow, hhigh⟩
  rcases eq_or_lt_of_le ht1 with ht1e | ht1lt
  · -- t = 1 : the query lands exactly on T2
    have hxT2 : x = temps.getD (i + 1) 0 := by rw [← hxg, ht1e]; ring
    have hbr : bracketIdx temps x = i + 1 := by
      rcases Nat.lt_or_ge (i + 2) temps.length with hlt | hge
      · refine bracketIdx_eq_of_between temps x (i + 1) hs (by omega) (le_of_eq hxT2.symm) ?_
        calc x = temps.getD (i + 1) 0 := hxT2
          _ < temps.getD (i + 1 + 1) 0 := pairwise_getD_lt temps hs (by omega) (by omega)
      · have hieq : i + 1 = temps.length - 1 := by omega
        rw [hieq]
        apply bracketIdx_last_eq temps x hs (by intro hnil; rw [hnil] at hi; simp at hi)
        rw [← hieq]
        exact le_of_eq hxT2.symm
    refine ⟨{ enthalpy := enths.getD (i + 1) 0, pressureUsed := cp,
              method := "exact", interpolationData := none }, ?_, ?_⟩
    · simp only [calcWithData]
      rw [if_neg hrange, hbr, if_pos hxT2.symm]
    · show enths.getD (i + 1) 0 = enths.getD i 0 + t * (enths.getD (i + 1) 0 - enths.getD i 0)
      rw [ht1e]
      ring
  · -- t < 1 : the query stays strictly below T2, bracket at i
    have hxlt : x < temps.getD (i + 1) 0 := by rw [← hxg]; nlinarith
    have hbr : bracketIdx temps x = i := bracketIdx_eq_of_between temps x i hs hi hx1 hxlt
    rcases eq_or_lt_of_le ht0 with ht0e | ht0lt
    · -- t = 0 : the query lands exactly on T1
      have hxT1 : x = temps.getD i 0 := by rw [← hxg, ← ht0e]; ring
      refine ⟨{ enthalpy := enths.getD i 0, pressureUsed := cp,
                method := "exact", interpolationData := none }, ?_, ?_⟩
      · simp only [calcWithData]
        rw [if_neg hrange, hbr, if_pos hxT1.symm]
      · show enths.getD i 0 = enths.getD i 0 + t * (enths.getD (i + 1) 0 - enths.getD i 0)
        rw [← ht0e]
        ring
    · -- 0 < t < 1 : proper interpolation
      have hT1x : temps.getD i 0 < x := by rw [← hxg]; nlinarith
      have hnotex : ¬ (temps.getD i 0 = x) := ne_of_lt hT1x
      refine ⟨{ enthalpy := linearInterpolate x (temps.getD i 0) (temps.getD (i + 1) 0)
                  (enths.getD i 0) (enths.getD (i + 1) 0),
                pressureUsed := cp, method := "interpolated",
                interpolationData := some ⟨temps.getD i 0, temps.getD (i + 1) 0,
                  enths.getD i 0, enths.getD (i + 1) 0⟩ }, ?_, ?_⟩
      · simp only [calcWithData]
        rw [if_neg hrange, hbr, if_neg hnotex]
      · show linearInterpolate x (temps.getD i 0) (temps.getD (i + 1) 0)
              (enths.getD i 0) (enths.getD (i + 1) 0)
            = enths.getD i 0 + t * (enths.getD (i + 1) 0 - enths.getD i 0)
        rw [linearInterpolate, if_neg (ne_of_lt hT)]
        have hx_sub : x - temps.getD i 0 = (temps.getD (i + 1) 0 - temps.getD i 0) * t := by
          rw [← hxg]
          ring
        rw [hx_sub, mul_comm (temps.getD (i + 1) 0 - temps.getD i 0) t, mul_div_assoc,
          div_self (sub_ne_zero.mpr (ne_of_gt hT)), mul_one]

end Steam

namespace Air

theorem windowPush_length {α : Type} (l : List α) (x : α) :
    (windowPush l x).length = if l.length + 1 > maxDataPoints then l.length else l.length + 1 := by
  rw [windowPush]
  split_ifs with h1 h2
  · simp
  · simp only [List.length_append, List.length_singleton] at h1
    omega
  · simp only [List.length_append, List.length_singleton] at h1
    omega
  · simp

theorem windowPush_length_le {α : Type} (l : List α) (x : α)
    (h : l.length ≤ maxDataPoints) : (windowPush l x).length ≤ maxDataPoints := by
  rw [windowPush_length]
  split_ifs with h1 <;> omega

theorem foldl_windowPush {α : Type} (xs : List α) : ∀ (ys : List α),
    ys.length ≤ maxDataPoints →
    List.foldl windowPush ys xs =
      (ys ++ xs).drop (ys.length + xs.length - maxDataPoints) := by
  induction xs with
  | nil =>
    intro ys h
    simp [Nat.sub_eq_zero_of_le h]
  | cons x xs ih =>
    intro ys h
    rw [List.foldl_cons]
    by_cases hlen : ys.length + 1 ≤ maxDataPoints
    · have hpush : windowPush ys x = ys ++ [x] := by
        rw [windowPush, if_neg]
        simp only [List.length_append, List.length_singleton]
        omega
      rw [hpush, ih (ys ++ [x]) (by simpa using hlen)]
      have harith : (ys ++ [x]).length + xs.length - maxDataPoints
          = ys.length + (x :: xs).length - maxDataPoints := by
        simp only [List.length_append, List.length_singleton, List.length_cons,
          List.length_nil]
        omega
      rw [harith, List.append_assoc, List.singleton_append]
    · have hys : ys.length = maxDataPoints := by omega
      have hpush : windowPush ys x = (ys ++ [x]).tail := by
        rw [windowPush, if_pos]
        simp only [List.length_append, List.length_singleton]
        omega
      have htail_len : ((ys ++ [x]).tail).length ≤ maxDataPoints := by
        simp only [List.length_tail, List.length_append, List.length_singleton]
        omega
      rw [hpush, ih _ htail_len]
      rw [← List.drop_one, ← List.drop_append_of_le_length (by simp), List.drop_drop]
      rw [List.append_assoc, List.singleton_append]
      congr 1
      simp only [List.length_drop, List.length_append, List.length_singleton, List.length_cons,
        List.length_nil]
      omega

end Air

namespace Air

theorem windowPush_length_eq {α β : Type} (l : List α) (l' : List β) (x : α) (y : β)
    (h : l.length = l'.length) : (windowPush l x).length = (windowPush l' y).length := by
  rw [windowPush_length, windowPush_length, h]

theorem updateChart_eq (s : AirState) (temp pressure : ℚ) (timestamp : String)
    (h1 : s.temperatureDataPoints.length = s.enthalpyData.length)
    (h2 : s.pressureDataPoints.length = s.enthalpyData.length)
    (h3 : s.timeLabels.length = s.enthalpyData.length) :
    updateChart s temp pressure timestamp =
      { enthalpyData := windowPush s.enthalpyData (calculateEnthalpy temp),
        temperatureDataPoints := windowPush s.temperatureDataPoints temp,
        pressureDataPoints := windowPush s.pressureDataPoints pressure,
        timeLabels := windowPush s.timeLabels timestamp } := by
  simp only [updateChart, windowPush, List.length_append, List.length_singleton, h1, h2, h3]
  split_ifs with hc <;> rfl

theorem recordAll_eq (inputs : List (ℚ × ℚ × String)) : ∀ (s : AirState),
    s.temperatureDataPoints.length = s.enthalpyData.length →
    s.pressureDataPoints.length = s.enthalpyData.length →
    s.timeLabels.length = s.enthalpyData.length →
    recordAll s inputs =
      { enthalpyData := List.foldl windowPush s.enthalpyData
          (inputs.map fun q => calculateEnthalpy q.1),
        temperatureDataPoints := List.foldl windowPush s.temperatureDataPoints
          (inputs.map fun q => q.1),
        pressureDataPoints := List.foldl windowPush s.pressureDataPoints
          (inputs.map fun q => q.2.1),
        timeLabels := List.foldl windowPush s.timeLabels
          (inputs.map fun q => q.2.2) } := by
  induction inputs with
  | nil =>
    intro s h1 h2 h3
    simp [recordAll]
  | cons q inputs ih =>
    intro s h1 h2 h3
    have hA : recordAll s (q :: inputs) = recordAll (updateChart s q.1 q.2.1 q.2.2) inputs := rfl
    rw [hA, updateChart_eq s q.1 q.2.1 q.2.2 h1 h2 h3]
    rw [ih _ (windowPush_length_eq _ _ _ _ h1) (windowPush_length_eq _ _ _ _ h2)
        (windowPush_length_eq _ _ _ _ h3)]
    simp only [List.map_cons, List.foldl_cons]

end Air

namespace Steam

theorem submit_300_10 (s : SteamState) :
    submit s 300 10 =
      { dataPoints := s.dataPoints ++
          [{ temperature := 300, pressure := 10, pressureUsed := 10,
             enthalpy := 3051.2, method := "exact" }] } := by
  have hclosest : findClosestPressure 10 = 10 := by
    norm_num [findClosestPressure, availablePressures, steamTableData, mathAbs,
      List.foldl, List.headD, List.map_cons, List.map_nil]
  have hcalc : calculateEnthalpy 300 10 =
      some (Except.ok { enthalpy := 3051.2, pressureUsed := 10,
                        method := "exact", interpolationData := none }) := by
    rw [calculateEnthalpy]
    rw [hclosest, lookup_10]
    norm_num [calcWithData, curve10, bracketIdx]
  rw [submit, if_neg (by norm_num), hcalc]

theorem foldl_submit_length (n : ℕ) : ∀ s : SteamState,
    (List.foldl (fun st (q : ℚ × ℚ) => submit st q.1 q.2) s
        (List.replicate n (300, 10))).dataPoints.length = s.dataPoints.length + n := by
  induction n with
  | zero => intro s; simp
  | succ n ih =>
    intro s
    rw [List.replicate_succ, List.foldl_cons]
    rw [show submit s (300, 10).1 (300, 10).2 = submit s 300 10 from rfl, submit_300_10]
    rw [ih]
    simp only [List.length_append, List.length_singleton]
    omega

end Steam

namespace Steam

theorem findClosestPressure_10 : findClosestPressure 10 = 10 := by
  norm_num [findClosestPressure, availablePressures, steamTableData, mathAbs,
    List.foldl, List.headD, List.map_cons, List.map_nil]

end Steam

/-! ## Claims -/

/-- C1: on the 10 kg/cm²G curve, `estimate(225, 10)` is interpolated between
the first two samples, uses pressure 10, and the enthalpy equals
`2827.4 + ((225-200)/(250-200))*(2957.2-2827.4) = 2892.3`. -/
theorem c1_concrete_scenario :
    Steam.calculateEnthalpy 225 10 =
      some (Except.ok
        { enthalpy := 2827.4 + ((225 - 200) / (250 - 200)) * (2957.2 - 2827.4),
          pressureUsed := 10, method := "interpolated",
          interpolationData := some
            { T1 := 200, T2 := 250, h1 := 2827.4, h2 := 2957.2 } })
    ∧ (2827.4 + ((225 - 200) / (250 - 200)) * (2957.2 - 2827.4) : ℚ) = 2892.3 := by
  constructor
  · rw [Steam.calculateEnthalpy]
    rw [Steam.findClosestPressure_10, Steam.lookup_10]
    norm_num [Steam.calcWithData, Steam.curve10, Steam.bracketIdx, Steam.linearInterpolate]
  · norm_num

/-- C8: the `x1 === x2` guard makes `linearInterpolate` return `y1` unchanged
on a degenerate bracket, so the interpolation is total and never divides by
zero. -/
theorem c8_division_guard (x x1 x2 y1 y2 : ℚ) (h : x1 = x2) :
    Steam.linearInterpolate x x1 x2 y1 y2 = y1 := by
  rw [Steam.linearInterpolate, if_pos h]

/-- C8 witness: the guard at a concrete degenerate bracket. -/
theorem c8_division_guard_witness :
    (3 : ℚ) = 3 ∧ Steam.linearInterpolate 5 3 3 7 9 = 7 :=
  ⟨rfl, c8_division_guard 5 3 3 7 9 rfl⟩

/-- C9: after a reset the stats read count 0 with the no-data marker, and a
second reset (in either variant) is a no-op on the history state. -/
theorem c9_reset_idempotent (s : Steam.SteamState) (s' : Air.AirState) :
    Steam.currentStats (Steam.resetForm s) = (0, none)
    ∧ Steam.resetForm (Steam.resetForm s) = Steam.resetForm s
    ∧ Air.resetForm (Air.resetForm s') = Air.resetForm s' :=
  ⟨rfl, rfl, rfl⟩

/-- C10: in the air variant the computed enthalpy depends only on the
temperature — two submissions with the same temperature and different
pressures append the same enthalpy series — and the formula is
`(1003.5 + 0.1*T - 0.00002*T*T) * T`. -/
theorem c10_air_pressure_independent (T p1 p2 : ℚ) (s : Air.AirState) (lbl : String) :
    (Air.updateChart s T p1 lbl).enthalpyData = (Air.updateChart s T p2 lbl).enthalpyData
    ∧ Air.calculateEnthalpy T = (1003.5 + 0.1 * T - 0.00002 * T * T) * T := by
  constructor
  · simp only [Air.updateChart]
    split_ifs <;> rfl
  · simp only [Air.calculateEnthalpy, Air.cpDryAir]
    ring

/-- C3: a query temperature strictly outside the selected curve's
`[Tmin, Tmax]` makes `calculateEnthalpy` fail with the range error carrying
the requested temperature, the selected pressure level and both bounds, and
the submit handler then leaves `dataPoints` unchanged (the table itself is an
immutable constant). -/
theorem c3_out_of_range (t p : ℚ) (data : Steam.SteamCurve)
    (hdata : Steam.steamTableData.lookup (Steam.findClosestPressure p) = some data)
    (hout : t < data.temperatures.getD 0 0 ∨
      data.temperatures.getD (data.temperatures.length - 1) 0 < t) :
    Steam.calculateEnthalpy t p =
      some (Except.error
        { temperature := t, pressureUsed := Steam.findClosestPressure p,
          tempMin := data.temperatures.getD 0 0,
          tempMax := data.temperatures.getD (data.temperatures.length - 1) 0 })
    ∧ ∀ s : Steam.SteamState, Steam.submit s t p = s := by
  have hcalc : Steam.calculateEnthalpy t p =
      some (Except.error
        { temperature := t, pressureUsed := Steam.findClosestPressure p,
          tempMin := data.temperatures.getD 0 0,
          tempMax := data.temperatures.getD (data.temperatures.length - 1) 0 }) := by
    rw [Steam.calculateEnthalpy, hdata, Option.map_some']
    rw [Steam.calcWithData]
    rw [if_pos hout]
  refine ⟨hcalc, fun s => ?_⟩
  rw [Steam.submit, hcalc]
  split_ifs <;> rfl

/-- C3 witness: querying 100 °C at pressure 10 is below the 10 kg/cm²G
curve's 200 °C minimum and records nothing. -/
theorem c3_out_of_range_witness :
    ((100 : ℚ) < Steam.curve10.temperatures.getD 0 0)
    ∧ Steam.submit { dataPoints := [] } 100 10 = { dataPoints := [] } := by
  have hdata : Steam.steamTableData.lookup (Steam.findClosestPressure 10) =
      some Steam.curve10 := by
    rw [Steam.findClosestPressure_10, Steam.lookup_10]
  have hlow : (100 : ℚ) < Steam.curve10.temperatures.getD 0 0 := by
    norm_num [Steam.curve10]
  exact ⟨hlow, (c3_out_of_range 100 10 Steam.curve10 hdata (Or.inl hlow)).2 _⟩

/-- C2 counterexample: in the steam variant (`script.js`) the submit handler
pushes onto `dataPoints` without any bound, so after `maxDataPoints + 5`
successful estimates the history length is 55, not `maxDataPoints`. -/
theorem c2_steam_history_counterexample :
    (List.foldl (fun st (q : ℚ × ℚ) => Steam.submit st q.1 q.2)
        { dataPoints := [] }
        (List.replicate (Air.maxDataPoints + 5) (300, 10))).dataPoints.length
      ≠ Air.maxDataPoints := by
  rw [Steam.foldl_submit_length]
  norm_num [Air.maxDataPoints]

/-- C2 (amended to the air variant, which is the one with a bound): recording
`maxDataPoints + 5` entries through `updateChart` from the initial state
leaves every history array at length `maxDataPoints`, holding exactly the
most recent `maxDataPoints` entries in their original order. -/
theorem c2_air_history_window (inputs : List (ℚ × ℚ × String))
    (h : inputs.length = Air.maxDataPoints + 5) :
    (Air.recordAll Air.initState inputs).enthalpyData =
        (inputs.map fun q => Air.calculateEnthalpy q.1).drop 5
    ∧ (Air.recordAll Air.initState inputs).enthalpyData.length = Air.maxDataPoints
    ∧ (Air.recordAll Air.initState inputs).temperatureDataPoints =
        (inputs.map fun q => q.1).drop 5
    ∧ (Air.recordAll Air.initState inputs).pressureDataPoints =
        (inputs.map fun q => q.2.1).drop 5
    ∧ (Air.recordAll Air.initState inputs).timeLabels =
        (inputs.map fun q => q.2.2).drop 5 := by
  have key : ∀ {α : Type} (l : List α), l.length = Air.maxDataPoints + 5 →
      List.foldl Air.windowPush [] l = l.drop 5 := by
    intro α l hl
    rw [Air.foldl_windowPush l [] (by simp)]
    simp only [List.nil_append, List.length_nil, hl]
    norm_num [Air.maxDataPoints]
  have hrec := Air.recordAll_eq inputs Air.initState rfl rfl rfl
  rw [hrec]
  refine ⟨key _ (by simp [h]), ?_, key _ (by simp [h]), key _ (by simp [h]),
    key _ (by simp [h])⟩
  show (List.foldl Air.windowPush [] (inputs.map fun q => Air.calculateEnthalpy q.1)).length
      = Air.maxDataPoints
  rw [key _ (by simp [h])]
  simp [h, Air.maxDataPoints]

/-- C2 witness: 55 concrete recordings leave exactly 50 entries. -/
theorem c2_air_history_window_witness :
    (List.replicate 55 ((300 : ℚ), (10 : ℚ), "t")).length = Air.maxDataPoints + 5
    ∧ (Air.recordAll Air.initState
        (List.replicate 55 ((300 : ℚ), (10 : ℚ), "t"))).enthalpyData.length
      = Air.maxDataPoints := by
  constructor
  · simp [Air.maxDataPoints]
  · exact (c2_air_history_window _ (by simp [Air.maxDataPoints])).2.1

/-- C5: for every curve of the reference table and every query within
`[Tmin, Tmax]`, the bracket index chosen by the search loop stays in bounds
and satisfies `T1 <= query` with either an exact match `T1 == query` or
`query <= T2`. -/
theorem c5_monotonic_bracket (pr : ℚ) (data : Steam.SteamCurve)
    (hmem : (pr, data) ∈ Steam.steamTableData) (t : ℚ)
    (h1 : data.temperatures.getD 0 0 ≤ t)
    (h2 : t ≤ data.temperatures.getD (data.temperatures.length - 1) 0) :
    Steam.bracketIdx data.temperatures t < data.temperatures.length
    ∧ data.temperatures.getD (Steam.bracketIdx data.temperatures t) 0 ≤ t
    ∧ (data.temperatures.getD (Steam.bracketIdx data.temperatures t) 0 = t
       ∨ (Steam.bracketIdx data.temperatures t + 1 < data.temperatures.length
          ∧ t ≤ data.temperatures.getD (Steam.bracketIdx data.temperatures t + 1) 0)) := by
  have hne : data.temperatures ≠ [] := by
    simp only [Steam.steamTableData, List.mem_cons, List.not_mem_nil, or_false,
      Prod.mk.injEq] at hmem
    rcases hmem with ⟨-, rfl⟩ | ⟨-, rfl⟩ | ⟨-, rfl⟩ | ⟨-, rfl⟩ | ⟨-, rfl⟩ <;>
      simp [Steam.curve10, Steam.curve20, Steam.curve30, Steam.curve50, Steam.curve90]
  have hile : data.temperatures.getD (Steam.bracketIdx data.temperatures t) 0 ≤ t :=
    Steam.bracketIdx_head_le _ t h1
  refine ⟨Steam.bracketIdx_lt_length _ t hne, hile, ?_⟩
  rcases Steam.bracketIdx_stop data.temperatures t hne with hstop | ⟨hlt, hlt2⟩
  · left
    have hidx : Steam.bracketIdx data.temperatures t = data.temperatures.length - 1 := by
      omega
    have hile' : data.temperatures.getD (data.temperatures.length - 1) 0 ≤ t := by
      rw [← hidx]
      exact hile
    rw [hidx]
    exact le_antisymm hile' h2
  · right
    exact ⟨hlt, le_of_lt hlt2⟩

/-- C5 witness: the bracket invariant at the concrete query 225 on the
10 kg/cm²G curve. -/
theorem c5_monotonic_bracket_witness :
    ((10 : ℚ), Steam.curve10) ∈ Steam.steamTableData
    ∧ Steam.curve10.temperatures.getD 0 0 ≤ (225 : ℚ)
    ∧ (225 : ℚ) ≤ Steam.curve10.temperatures.getD
        (Steam.curve10.temperatures.length - 1) 0
    ∧ Steam.bracketIdx Steam.curve10.temperatures 225 <
        Steam.curve10.temperatures.length := by
  have hmem : ((10 : ℚ), Steam.curve10) ∈ Steam.steamTableData := by
    simp [Steam.steamTableData]
  have hlo : Steam.curve10.temperatures.getD 0 0 ≤ (225 : ℚ) := by
    norm_num [Steam.curve10]
  have hhi : (225 : ℚ) ≤ Steam.curve10.temperatures.getD
      (Steam.curve10.temperatures.length - 1) 0 := by
    norm_num [Steam.curve10]
  exact ⟨hmem, hlo, hhi, (c5_monotonic_bracket 10 Steam.curve10 hmem 225 hlo hhi).1⟩

/-- C6: for every requested pressure, estimating at the selected curve's
first temperature is an exact match returning `enthalpies[0]`, and at its
last temperature an exact match returning the last enthalpy. -/
theorem c6_interpolation_boundary (p : ℚ) (data : Steam.SteamCurve)
    (hdata : Steam.steamTableData.lookup (Steam.findClosestPressure p) = some data) :
    Steam.calculateEnthalpy (data.temperatures.getD 0 0) p =
      some (Except.ok
        { enthalpy := data.enthalpies.getD 0 0,
          pressureUsed := Steam.findClosestPressure p,
          method := "exact", interpolationData := none })
    ∧ Steam.calculateEnthalpy
        (data.temperatures.getD (data.temperatures.length - 1) 0) p =
      some (Except.ok
        { enthalpy := data.enthalpies.getD (data.enthalpies.length - 1) 0,
          pressureUsed := Steam.findClosestPressure p,
          method := "exact", interpolationData := none }) := by
  rcases Steam.findClosestPressure_cases p with hc | hc | hc | hc | hc
  · rw [hc, Steam.lookup_10] at hdata
    obtain rfl := Option.some.inj hdata
    rw [Steam.calculateEnthalpy, Steam.calculateEnthalpy, hc, Steam.lookup_10]
    constructor <;>
      norm_num [Steam.calcWithData, Steam.curve10, Steam.bracketIdx]
  · rw [hc, Steam.lookup_20] at hdata
    obtain rfl := Option.some.inj hdata
    rw [Steam.calculateEnthalpy, Steam.calculateEnthalpy, hc, Steam.lookup_20]
    constructor <;>
      norm_num [Steam.calcWithData, Steam.curve20, Steam.bracketIdx]
  · rw [hc, Steam.lookup_30] at hdata
    obtain rfl := Option.some.inj hdata
    rw [Steam.calculateEnthalpy, Steam.calculateEnthalpy, hc, Steam.lookup_30]
    constructor <;>
      norm_num [Steam.calcWithData, Steam.curve30, Steam.bracketIdx]
  · rw [hc, Steam.lookup_50] at hdata
    obtain rfl := Option.some.inj hdata
    rw [Steam.calculateEnthalpy, Steam.calculateEnthalpy, hc, Steam.lookup_50]
    constructor <;>
      norm_num [Steam.calcWithData, Steam.curve50, Steam.bracketIdx]
  · rw [hc, Steam.lookup_90] at hdata
    obtain rfl := Option.some.inj hdata
    rw [Steam.calculateEnthalpy, Steam.calculateEnthalpy, hc, Steam.lookup_90]
    constructor <;>
      norm_num [Steam.calcWithData, Steam.curve90, Steam.bracketIdx]

/-- C6 witness: the boundary behaviour at pressure 10 and the 10 kg/cm²G
curve's first temperature. -/
theorem c6_interpolation_boundary_witness :
    Steam.steamTableData.lookup (Steam.findClosestPressure 10) = some Steam.curve10
    ∧ Steam.calculateEnthalpy (Steam.curve10.temperatures.getD 0 0) 10 =
        some (Except.ok
          { enthalpy := Steam.curve10.enthalpies.getD 0 0,
            pressureUsed := Steam.findClosestPressure 10,
            method := "exact", interpolationData := none }) := by
  have hdata : Steam.steamTableData.lookup (Steam.findClosestPressure 10) =
      some Steam.curve10 := by
    rw [Steam.findClosestPressure_10, Steam.lookup_10]
  exact ⟨hdata, (c6_interpolation_boundary 10 Steam.curve10 hdata).1⟩

/-- C7: over exact rational arithmetic, estimating at
`T1 + (T2 - T1) * t` for a bracket `(T1, T2)` of the selected curve and
`t ∈ [0, 1]` yields enthalpy exactly `h1 + t * (h2 - h1)`. -/
theorem c7_linearity (p : ℚ) (data : Steam.SteamCurve)
    (hdata : Steam.steamTableData.lookup (Steam.findClosestPressure p) = some data)
    (i : ℕ) (hi : i + 1 < data.temperatures.length)
    (t : ℚ) (ht0 : 0 ≤ t) (ht1 : t ≤ 1) :
    Steam.resultEnthalpy (Steam.calculateEnthalpy
        (data.temperatures.getD i 0 +
          (data.temperatures.getD (i + 1) 0 - data.temperatures.getD i 0) * t) p) =
      some (data.enthalpies.getD i 0 +
        t * (data.enthalpies.getD (i + 1) 0 - data.enthalpies.getD i 0)) := by
  rcases Steam.findClosestPressure_cases p with hc | hc | hc | hc | hc
  · rw [hc, Steam.lookup_10] at hdata
    obtain rfl := Option.some.inj hdata
    obtain ⟨r, hok, henth⟩ := Steam.calcWithData_linear Steam.curve10.temperatures
      Steam.curve10.enthalpies 10 Steam.curve10_sorted i hi t ht0 ht1
    rw [Steam.calculateEnthalpy, hc, Steam.lookup_10, Option.map_some']
    rw [show Steam.curve10 =
      (⟨Steam.curve10.temperatures, Steam.curve10.enthalpies⟩ : Steam.SteamCurve) from rfl]
    rw [hok, Steam.resultEnthalpy, henth]
  · rw [hc, Steam.lookup_20] at hdata
    obtain rfl := Option.some.inj hdata
    obtain ⟨r, hok, henth⟩ := Steam.calcWithData_linear Steam.curve20.temperatures
      Steam.curve20.enthalpies 20 Steam.curve20_sorted i hi t ht0 ht1
    rw [Steam.calculateEnthalpy, hc, Steam.lookup_20, Option.map_some']
    rw [show Steam.curve20 =
      (⟨Steam.curve20.temperatures, Steam.curve20.enthalpies⟩ : Steam.SteamCurve) from rfl]
    rw [hok, Steam.resultEnthalpy, henth]
  · rw [hc, Steam.lookup_30] at hdata
    obtain rfl := Option.some.inj hdata
    obtain ⟨r, hok, henth⟩ := Steam.calcWithData_linear Steam.curve30.temperatures
      Steam.curve30.enthalpies 30 Steam.curve30_sorted i hi t ht0 ht1
    rw [Steam.calculateEnthalpy, hc, Steam.lookup_30, Option.map_some']
    rw [show Steam.curve30 =
      (⟨Steam.curve30.temperatures, Steam.curve30.enthalpies⟩ : Steam.SteamCurve) from rfl]
    rw [hok, Steam.resultEnthalpy, henth]
  · rw [hc, Steam.lookup_50] at hdata
    obtain rfl := Option.some.inj hdata
    obtain ⟨r, hok, henth⟩ := Steam.calcWithData_linear Steam.curve50.temperatures
      Steam.curve50.enthalpies 50 Steam.curve50_sorted i hi t ht0 ht1
    rw [Steam.calculateEnthalpy, hc, Steam.lookup_50, Option.map_some']
    rw [show Steam.curve50 =
      (⟨Steam.curve50.temperatures, Steam.curve50.enthalpies⟩ : Steam.SteamCurve) from rfl]
    rw [hok, Steam.resultEnthalpy, henth]
  · rw [hc, Steam.lookup_90] at hdata
    obtain rfl := Option.some.inj hdata
    obtain ⟨r, hok, henth⟩ := Steam.calcWithData_linear Steam.curve90.temperatures
      Steam.curve90.enthalpies 90 Steam.curve90_sorted i hi t ht0 ht1
    rw [Steam.calculateEnthalpy, hc, Steam.lookup_90, Option.map_some']
    rw [show Steam.curve90 =
      (⟨Steam.curve90.temperatures, Steam.curve90.enthalpies⟩ : Steam.SteamCurve) from rfl]
    rw [hok, Steam.resultEnthalpy, henth]

/-- C7 witness: the midpoint of the first bracket of the 10 kg/cm²G curve. -/
theorem c7_linearity_witness :
    Steam.steamTableData.lookup (Steam.findClosestPressure 10) = some Steam.curve10
    ∧ (0 : ℕ) + 1 < Steam.curve10.temperatures.length
    ∧ (0 : ℚ) ≤ 1 / 2 ∧ (1 / 2 : ℚ) ≤ 1
    ∧ Steam.resultEnthalpy (Steam.calculateEnthalpy
        (Steam.curve10.temperatures.getD 0 0 +
          (Steam.curve10.temperatures.getD (0 + 1) 0 -
            Steam.curve10.temperatures.getD 0 0) * (1 / 2)) 10) =
      some (Steam.curve10.enthalpies.getD 0 0 +
        (1 / 2) * (Steam.curve10.enthalpies.getD (0 + 1) 0 -
          Steam.curve10.enthalpies.getD 0 0)) := by
  have hdata : Steam.steamTableData.lookup (Steam.findClosestPressure 10) =
      some Steam.curve10 := by
    rw [Steam.findClosestPressure_10, Steam.lookup_10]
  have hi : (0 : ℕ) + 1 < Steam.curve10.temperatures.length := by
    norm_num [Steam.curve10]
  exact ⟨hdata, hi, by norm_num, by norm_num,
    c7_linearity 10 Steam.curve10 hdata 0 hi (1 / 2) (by norm_num) (by norm_num)⟩

/-- C4: pressure selection returns a declared level of minimal absolute
distance; on ties the first-declared (hence numerically least, the list
being ascending) level wins, and in particular the equidistant query 15
always selects 10. -/
theorem c4_nearest_pressure (p : ℚ) :
    Steam.findClosestPressure p ∈ Steam.availablePressures
    ∧ (∀ q ∈ Steam.availablePressures, |p - Steam.findClosestPressure p| ≤ |p - q|)
    ∧ (∀ q ∈ Steam.availablePressures,
        |p - q| ≤ |p - Steam.findClosestPressure p| → Steam.findClosestPressure p ≤ q)
    ∧ Steam.findClosestPressure 15 = 10 := by
  have h15 : Steam.findClosestPressure 15 = 10 := by
    norm_num [Steam.findClosestPressure, Steam.availablePressures, Steam.steamTableData,
      Steam.mathAbs, List.foldl, List.headD, List.map_cons, List.map_nil]
  have key : Steam.findClosestPressure p ∈ Steam.availablePressures
      ∧ (∀ q ∈ Steam.availablePressures, |p - Steam.findClosestPressure p| ≤ |p - q|)
      ∧ (∀ q ∈ Steam.availablePressures,
          |p - q| ≤ |p - Steam.findClosestPressure p| → Steam.findClosestPressure p ≤ q) := by
    simp only [Steam.findClosestPressure, Steam.availablePressures, Steam.steamTableData,
      List.map_cons, List.map_nil, List.headD, List.foldl_cons, List.foldl_nil,
      Steam.mathAbs_eq_abs, lt_self_iff_false, if_false]
    split_ifs <;>
      dsimp only at * <;>
      refine ⟨by norm_num, fun q hq => ?_, fun q hq hle => ?_⟩ <;>
        simp only [List.mem_cons, List.not_mem_nil, or_false] at hq <;>
        rcases hq with rfl | rfl | rfl | rfl | rfl <;>
        linarith
  exact ⟨key.1, key.2.1, key.2.2, h15⟩

/-- C4 witness: at the equidistant query 15 the minimality bound against the
declared level 20 holds and the selected level is 10. -/
theorem c4_nearest_pressure_witness :
    (20 : ℚ) ∈ Steam.availablePressures
    ∧ |(15 : ℚ) - Steam.findClosestPressure 15| ≤ |(15 : ℚ) - 20|
    ∧ Steam.findClosestPressure 15 = 10 := by
  have h := c4_nearest_pressure 15
  have hmem : (20 : ℚ) ∈ Steam.availablePressures := by
    simp [Steam.availablePressures, Steam.steamTableData]
  exact ⟨hmem, h.2.1 20 hmem, h.2.2.2⟩
